import Mathlib

/-!
Verification development for the csv2html converter (src/csv2html.py).

The Python source is shallowly embedded below.  Pure functions of the source
become Lean functions; the pandas CSV reader (`pd.read_csv`), an external
collaborator, is abstracted as a parameter `read : String → String → Option
DataFrame` (encoding, delimiter ↦ parsed frame, `none` for the exceptions the
source catches).  File system interaction is modelled by an explicit
`InputFile` record and by returning the written file instead of performing IO.
Static presentational text of the generated page (the CSS and JavaScript
literals, excluded from the behavioural design) is abbreviated inside the
template chunk constants; every data-dependent part of the template is kept
exactly.
-/

namespace Csv2Html

/-- pandas column dtype, as far as the cleaning code observes it:
`object` (string-ish) versus any numeric dtype. -/
inductive Dtype
  | object
  | numeric
deriving DecidableEq, Repr

/-- A cell of a pandas DataFrame as the source observes it: missing (`NaN`),
a string, or a number (modelled as an integer). -/
inductive Cell
  | nan
  | str (s : String)
  | num (n : Int)
deriving DecidableEq, Repr

def Cell.isNan : Cell → Bool
  | Cell.nan => true
  | _ => false

/-- A pandas DataFrame at the granularity the source manipulates it:
ordered column names, per-column dtypes, row-major cells. -/
structure DataFrame where
  columns : List String
  dtypes : List Dtype
  rows : List (List Cell)
deriving DecidableEq, Repr

/-! ## Python string primitives used by the source -/

/-- Drop matching characters from the end of a character list. -/
def dropEndWhile (p : Char → Bool) (l : List Char) : List Char :=
  (l.reverse.dropWhile p).reverse

/-- Drop matching characters from both ends (the semantics of Python
`str.strip(chars)`: every leading and every trailing matching character is
removed, not just one). -/
def stripChars (p : Char → Bool) (l : List Char) : List Char :=
  dropEndWhile p (l.dropWhile p)

/-- Python `str.strip()`: strip whitespace from both ends. -/
def pyStrip (s : String) : String :=
  String.mk (stripChars Char.isWhitespace s.toList)

/-- Python `str.strip('"')`: strip every leading and trailing double quote. -/
def stripQuotes (s : String) : String :=
  String.mk (stripChars (fun c => c = '"') s.toList)

/-- The per-field normalisation of the manual fallback parser
(`cell.strip().strip('"')`, src/csv2html.py lines 1039 and 1042). -/
def cleanField (s : String) : String :=
  stripQuotes (pyStrip s)

/-- Split a character list at every separator character, keeping empty
segments (the semantics of Python `str.split(sep)` for a one-character
separator: `"a,,b" ↦ ["a","","b"]`, `"" ↦ [""]`, `"a," ↦ ["a",""]`). -/
def splitOnChar (p : Char → Bool) : List Char → List (List Char)
  | [] => [[]]
  | c :: rest =>
    match splitOnChar p rest with
    | [] => if p c then [[], []] else [[c]]
    | h :: t => if p c then [] :: h :: t else (c :: h) :: t

/-- Python `s.split(sep)` for a one-character separator. -/
def pySplit (p : Char → Bool) (s : String) : List String :=
  (splitOnChar p s.toList).map String.mk

/-- Python `d in s` for a one-character `d`. -/
def pyIn (d : Char) (s : String) : Bool :=
  s.toList.any (fun c => c == d)

/-- Python `str.lower()` (ASCII case folding, all the source compares). -/
def pyLower (s : String) : String :=
  String.mk (s.toList.map Char.toLower)

/-! ## Table loader: `repair_and_read_csv` (src/csv2html.py lines 996-1054) -/

/-- The fixed encoding preference order (line 1000). -/
def encodings : List String :=
  ["utf-8", "latin-1", "cp1252", "iso-8859-1"]

/-- The fixed delimiter preference order for `pd.read_csv` (line 1001). -/
def delimiters : List String :=
  [",", ";", "\t", "|"]

/-- The encoding-major, delimiter-minor attempt order generated by the two
nested `for` loops (lines 1003-1004). -/
def attemptList : List (String × String) :=
  encodings.flatMap (fun e => delimiters.map (fun d => (e, d)))

/-- Acceptance test on a parsed frame (lines 1010-1013): more than one
column, at least one row, and strictly more than half of the first row's
cells non-missing.  `first_row.notna().sum() / len(df.columns) > 0.5` on
exact integers is `ncols < 2 * notna_count`; the float division of the
source cannot disturb that comparison at any realistic column count. -/
def attemptOk (df : DataFrame) : Bool :=
  decide (1 < df.columns.length) && decide (0 < df.rows.length) &&
    (match df.rows with
     | [] => false
     | r :: _ => decide (df.columns.length < 2 * (r.filter (fun c => !c.isNan)).length))

/-- The nested attempt loop: first accepted combination wins; a read that
raises one of the caught exceptions (`read e d = none`) or an unaccepted
frame just moves to the next combination (lines 1003-1018). -/
def tryAttempts (read : String → String → Option DataFrame) :
    List (String × String) → Option DataFrame
  | [] => none
  | (e, d) :: rest =>
    match read e d with
    | some df => if attemptOk df then some df else tryAttempts read rest
    | none => tryAttempts read rest

/-- Delimiter detection of the manual fallback (lines 1031-1035): first of
semicolon, tab, pipe, comma occurring in the first line; comma by default. -/
def detectDelim (first_line : String) : Char :=
  (([';', '\t', '|', ','].find? (fun d => pyIn d first_line)).getD ',')

/-- `[line.strip() for line in content.split('\n') if line.strip()]`
(line 1025). -/
def pyLines (content : String) : List String :=
  ((pySplit (fun c => c = '\n') content).map pyStrip).filter (fun l => l != "")

/-- Split one line on the detected delimiter and normalise each field
(lines 1039 and 1042). -/
def splitRow (d : Char) (line : String) : List String :=
  (pySplit (fun c => c = d) line).map cleanField

/-- The manual fallback parser (lines 1021-1049): needs at least two
non-empty lines, takes the first as header, keeps a subsequent line only if
it splits into exactly as many cells as the header, and fails when no row
is kept. -/
def manualParse (content : String) : Option DataFrame :=
  match pyLines content with
  | [] => none
  | first :: rest =>
    if rest.isEmpty then none
    else
      let d := detectDelim first
      let headers := splitRow d first
      let data := (rest.map (splitRow d)).filter (fun r => r.length == headers.length)
      if data.isEmpty then none
      else
        some { columns := headers
               dtypes := headers.map (fun _ => Dtype.object)
               rows := data.map (fun r => r.map Cell.str) }

/-- `repair_and_read_csv` (lines 996-1054): the nested encoding × delimiter
attempts, then the manual fallback. -/
def repair_and_read_csv (read : String → String → Option DataFrame)
    (content : String) : Option DataFrame :=
  match tryAttempts read attemptList with
  | some df => some df
  | none => manualParse content

/-! ## Cleaning: the body of `create_html_from_csv` (lines 920-928) -/

/-- `df.fillna('')` at one cell: a missing value becomes the empty string. -/
def cellFill : Cell → Cell
  | Cell.nan => Cell.str ""
  | c => c

/-- Whether column `j` contains a missing value. -/
def colHasNan (df : DataFrame) (j : Nat) : Bool :=
  df.rows.any (fun r => (r.getD j (Cell.str "")).isNan)

/-- Dtype of column `j` after `df.fillna('')`: a numeric column that held a
`NaN` becomes object dtype (the fill mixes a string into it); a numeric
column without missing values stays numeric. -/
def dtypeAfterFill (df : DataFrame) (j : Nat) : Dtype :=
  if df.dtypes.getD j Dtype.object = Dtype.object || colHasNan df j then
    Dtype.object
  else Dtype.numeric

/-- Python `str(value)` for a cell, as `astype(str)` applies it. -/
def cellToStr : Cell → String
  | Cell.nan => "nan"
  | Cell.str s => s
  | Cell.num n => toString n

/-- One cell of the per-column cleaning loop (lines 926-928): only columns
whose dtype is object after the fill get `astype(str).str.strip()`. -/
def cleanCell (df : DataFrame) (j : Nat) (c : Cell) : Cell :=
  if dtypeAfterFill df j = Dtype.object then
    Cell.str (pyStrip (cellToStr (cellFill c)))
  else c

/-- Apply `cleanCell` across a row, tracking the column index. -/
def cleanRow (df : DataFrame) : Nat → List Cell → List Cell
  | _, [] => []
  | j, c :: cs => cleanCell df j c :: cleanRow df (j + 1) cs

/-- The whole cleaning step of `create_html_from_csv` (lines 921-928):
trim the column names, fill missing values, trim the object columns. -/
def clean_df (df : DataFrame) : DataFrame :=
  { columns := df.columns.map pyStrip
    dtypes := (List.range df.columns.length).map (dtypeAfterFill df)
    rows := df.rows.map (cleanRow df 0) }

/-! ## Page generator: `create_enhanced_html_template` (lines 20-907) -/

/-- Sequential string concatenation, the semantics of Python `''.join` and
of the `+=` accumulation loops of the source. -/
def strConcat : List String → String
  | [] => ""
  | s :: rest => s ++ strConcat rest

/-- One `<option>` tag of a filter dropdown (line 40). -/
def optionTag (v : String) : String :=
  "<option value=\"" ++ v ++ "\">" ++ v ++ "</option>"

/-- `''.join(...)` of the option tags (line 40). -/
def optionsHtml (vals : List String) : String :=
  strConcat (vals.map optionTag)

/-- `sorted(column.astype(str).unique())` (line 39): the lexicographically
sorted list of the distinct values.  pandas `unique` keeps first-appearance
order and `List.dedup` keeps another representative order, but the
subsequent sort cancels the difference: both yield the sorted duplicate-free
enumeration of the same set. -/
def sortDedup (l : List String) : List String :=
  List.insertionSort (fun a b => a ≤ b) l.dedup

/-- The string values of column `j` (`df[col].astype(str)` on a frame with
unique column names, so that the name lookup is the positional lookup). -/
def colValuesStr (df : DataFrame) (j : Nat) : List String :=
  df.rows.map (fun r => cellToStr (r.getD j (Cell.str "")))

/-- The dropdown block built for column `i` by lines 41-49, exactly as the
f-string writes it (the concatenation is split at the boundaries of the
interpolation slots; the string value is unchanged). -/
def dropdownHtml (i : Nat) (col : String) (vals : List String) : String :=
  "\n        <div class=\"col-md-3 mb-3\">\n            <label for=\"filter-" ++
    toString i ++ "\" class=\"form-label fw-bold\">" ++ col ++
    "</label>\n            <select class=\"form-select filter-select\" data-column=\"" ++
    toString i ++ "\" " ++ ("id=\"filter-" ++ toString i ++ "\"") ++
    ">\n                " ++ "<option value=\"\">All</option>" ++ "\n                " ++
    optionsHtml vals ++ "\n            </select>\n        </div>\n        "

/-- The `filter_dropdowns` accumulator of lines 37-49. -/
def filterDropdowns (df : DataFrame) : String :=
  strConcat ((List.range df.columns.length).map (fun i =>
    dropdownHtml i (df.columns.getD i "") (sortDedup (colValuesStr df i))))

/-- One data cell of the static table. -/
def cellTd (c : Cell) : String :=
  "      " ++ ("<td>" ++ cellToStr c ++ "</td>") ++ "\n"

/-- One data row of the static table. -/
def rowTr (r : List Cell) : String :=
  "    <tr>\n" ++ strConcat (r.map cellTd) ++ "    </tr>\n"

/-- One header cell of the static table. -/
def headerTh (c : String) : String :=
  "      <th>" ++ c ++ "</th>\n"

/-- Modelled from the spec: `df.to_html(..., index=False, escape=False)`
(lines 26-31) is supplied by pandas, an external collaborator not under
src/.  Per the spec's page-generator contract it serialises one header cell
per column in column order, one `<tr>` per row in row order, one `<td>` per
value, with cell values inserted verbatim (HTML-special characters NOT
escaped, matching `escape=False`). -/
def to_html (df : DataFrame) (table_id : String) : String :=
  "<table border=\"1\" class=\"dataframe table table-striped table-hover data-table\" id=\"" ++
    table_id ++ "\">\n  <thead>\n    <tr style=\"text-align: right;\">\n" ++
    strConcat (df.columns.map headerTh) ++
    "    </tr>\n  </thead>\n  <tbody>\n" ++
    strConcat (df.rows.map rowTr) ++ "  </tbody>\n</table>"

/-- Template text before the first `{title}` slot.  Here and in the
following chunk constants the purely presentational CSS/JavaScript
literals of lines 51-905 are abbreviated to `...`; the spec excludes
presentation from the behavioural design, and no claim depends on the
static text.  Every interpolation slot of the f-string is kept in order. -/
def tmpl0 : String :=
  "\n<!DOCTYPE html>\n<html lang=\"en\">\n<head>\n    <meta charset=\"UTF-8\">\n    <meta name=\"viewport\" content=\"width=device-width, initial-scale=1.0\">\n    <title>"

/-- Between `{title}` (line 57) and `{title}` (line 589); holds the style
block, abbreviated. -/
def tmpl1 : String :=
  "</title>\n    <style>...</style>\n</head>\n<body>\n                <h1 class=\"page-title\">\n                    <i class=\"bi bi-table\"></i> "

/-- Between `{title}` (line 589) and `{len(df)}` (line 597). -/
def tmpl2 : String :=
  "\n                </h1>\n                <div class=\"stats-card\">\n                    <div class=\"stats-number\" id=\"total-rows\">"

/-- Between `{len(df)}` (line 597) and `{len(df.columns)}` (line 601). -/
def tmpl3 : String :=
  "</div>\n                    <div class=\"stats-label\">Total Rows</div>\n                </div>\n                <div class=\"stats-card\">\n                    <div class=\"stats-number\">"

/-- Between `{len(df.columns)}` (line 601) and `{len(df)}` (line 605). -/
def tmpl4 : String :=
  "</div>\n                    <div class=\"stats-label\">Columns</div>\n                </div>\n                <div class=\"stats-card\">\n                    <div class=\"stats-number\" id=\"filtered-rows\">"

/-- Between `{len(df)}` (line 605) and `{filter_dropdowns}` (line 642). -/
def tmpl5 : String :=
  "</div>\n                    <div class=\"stats-label\">Filtered Rows</div>\n                </div>\n                    <div class=\"row g-3\">\n                        "

/-- Between `{filter_dropdowns}` (line 642) and `{table_html}` (line 650). -/
def tmpl6 : String :=
  "\n                    </div>\n            <div class=\"table-container\">\n                <div class=\"table-responsive\">\n                    "

/-- Between `{table_html}` (line 650) and `{table_id}` (line 720); holds the
embedded script, abbreviated. -/
def tmpl7 : String :=
  "\n                </div>\n            </div>\n    <script>\n        const tableElement = document.getElementById(\x27"

/-- After `{table_id}` (line 720) to the end of the template. -/
def tmpl8 : String :=
  "\x27);\n        ...\n    </script>\n</body>\n</html>\n"

/-- `create_enhanced_html_template` (lines 20-907): the f-string with its
eight interpolation slots in source order. -/
def create_enhanced_html_template (df : DataFrame) (table_id title : String) : String :=
  tmpl0 ++ title ++ tmpl1 ++ title ++ tmpl2 ++ toString df.rows.length ++
    tmpl3 ++ toString df.columns.length ++ tmpl4 ++ toString df.rows.length ++
    tmpl5 ++ filterDropdowns df ++ tmpl6 ++ to_html df table_id ++
    tmpl7 ++ table_id ++ tmpl8

/-! ## `create_html_from_csv` (lines 910-951) -/

/-- The error page of lines 933-950, with `str(e)` interpolated. -/
def errorHtml (msg : String) : String :=
  "\n        <!DOCTYPE html>\n        <html>\n        <head>\n            <title>Error</title>\n            <style>\n                body \x7b font-family: Arial, sans-serif; margin: 40px; \x7d\n                .error \x7b color: #d32f2f; background: #ffebee; padding: 20px; border-radius: 8px; \x7d\n            </style>\n        </head>\n        <body>\n            <div class=\"error\">\n                <h2>Error processing CSV file</h2>\n                <p><strong>Error:</strong> " ++
    msg ++ "</p>\n            </div>\n        </body>\n        </html>\n        "

/-- `create_html_from_csv` (lines 910-951): load, clean, render; any failure
is swallowed and rendered as the error page (`df.empty` is pandas: zero rows
or zero columns). -/
def create_html_from_csv (read : String → String → Option DataFrame)
    (content : String) (table_id title : String) : String :=
  match repair_and_read_csv read content with
  | none => errorHtml "Could not read CSV file or file is empty"
  | some df =>
    if df.rows.isEmpty || df.columns.isEmpty then
      errorHtml "Could not read CSV file or file is empty"
    else create_enhanced_html_template (clean_df df) table_id title

/-! ## CLI layer: `convert_csv_to_html` (lines 954-993) and `main`
(lines 1057-1097) -/

/-- The last path component (`pathlib.PurePath.name`). -/
def lastComponent (p : String) : String :=
  (pySplit (fun c => c = '/') p).getLastD ""

/-- Index of the last dot of a name (`name.rfind('.')` when a dot exists). -/
def rfindDot (cs : List Char) : Option Nat :=
  ((List.range cs.length).filter (fun i => cs.getD i ' ' == '.')).getLast?

/-- `Path.suffix`: the extension of the final component, empty unless the
last dot is neither the first nor the last character of the name. -/
def pySuffix (p : String) : String :=
  let cs := (lastComponent p).toList
  match rfindDot cs with
  | some i => if 0 < i ∧ i + 1 < cs.length then String.mk (cs.drop i) else ""
  | none => ""

/-- `Path.stem`: the final component without its suffix. -/
def pyStem (p : String) : String :=
  let name := lastComponent p
  String.mk (name.toList.take (name.length - (pySuffix p).length))

/-- `input_path.with_suffix('.html')` (line 969). -/
def withSuffixHtml (p : String) : String :=
  String.mk (p.toList.take (p.length - (pySuffix p).length)) ++ ".html"

/-- The input file as `convert_csv_to_html` observes it: its path, whether
`Path.exists()` holds, and the decoded text content the loader would see. -/
structure InputFile where
  path : String
  present : Bool
  content : String

/-- Observable outcome of one `convert_csv_to_html` call: the returned
value (`None` on error), the file written (path and content; `none` when the
error path returned before any write), and the printed error message. -/
structure ConvOutcome where
  result : Option String
  written : Option (String × String)
  errMsg : Option String
deriving DecidableEq

/-- `convert_csv_to_html` (lines 954-993): existence check, extension check,
default output path and title, render, write.  Each raised error is caught
at line 991 and turned into a printed message and a `None` return. -/
def convert_csv_to_html (read : String → String → Option DataFrame)
    (file : InputFile) (output_file : Option String) (title : Option String) :
    ConvOutcome :=
  if !file.present then
    { result := none, written := none
      errMsg := some ("Input file \x27" ++ file.path ++ "\x27 not found") }
  else if !(pyLower (pySuffix file.path) == ".csv") then
    { result := none, written := none
      errMsg := some "Input file must be a CSV file" }
  else
    let out := output_file.getD (withSuffixHtml file.path)
    let t := title.getD ("Data from " ++ pyStem file.path)
    let html := create_html_from_csv read file.content "data-table" t
    { result := some out, written := some (out, html), errMsg := none }

/-- The exit status of `main` (lines 1080-1090): `0` when
`convert_csv_to_html` returned a path, `1` when it returned `None`. -/
def mainExit (read : String → String → Option DataFrame) (file : InputFile)
    (output_file : Option String) (title : Option String) : Nat :=
  match (convert_csv_to_html read file output_file title).result with
  | some _ => 0
  | none => 1

/-- `containsStr x m`: `m` occurs contiguously inside `x`. -/
def containsStr (x m : String) : Prop :=
  ∃ pre post : String, x = pre ++ m ++ post

/-! ## Helper lemmas -/

theorem strConcat_append (l1 l2 : List String) :
    strConcat (l1 ++ l2) = strConcat l1 ++ strConcat l2 := by
  induction l1 with
  | nil => simp [strConcat]
  | cons s t ih => simp [strConcat, ih, String.append_assoc]

theorem containsStr_pad (a b x m : String) (h : containsStr x m) :
    containsStr (a ++ x ++ b) m := by
  obtain ⟨pre, post, rfl⟩ := h
  exact ⟨a ++ pre, post ++ b, by simp [String.append_assoc]⟩

theorem containsStr_trans (x y m : String) (hxy : containsStr x y)
    (hym : containsStr y m) : containsStr x m := by
  obtain ⟨p1, q1, rfl⟩ := hxy
  exact containsStr_pad p1 q1 y m hym

theorem strConcat_extract (f : α → String) {a : α} {l : List α} (h : a ∈ l) :
    containsStr (strConcat (l.map f)) (f a) := by
  obtain ⟨s, t, rfl⟩ := List.append_of_mem h
  refine ⟨strConcat (s.map f), strConcat (t.map f), ?_⟩
  rw [List.map_append, strConcat_append, List.map_cons]
  simp only [strConcat, String.append_assoc]

theorem head?_dropWhile_false (p : Char → Bool) (l : List Char) (c : Char)
    (h : (l.dropWhile p).head? = some c) : p c = false := by
  induction l with
  | nil => simp [List.dropWhile] at h
  | cons a t ih =>
    rw [List.dropWhile_cons] at h
    by_cases hpa : p a = true
    · rw [if_pos hpa] at h
      exact ih h
    · rw [if_neg hpa] at h
      simp at h
      subst h
      exact Bool.eq_false_iff.mpr hpa

theorem stripChars_getLast (p : Char → Bool) (l : List Char) (c : Char)
    (h : (stripChars p l).getLast? = some c) : p c = false := by
  unfold stripChars dropEndWhile at h
  rw [List.getLast?_reverse] at h
  exact head?_dropWhile_false p _ c h

theorem stripChars_head (p : Char → Bool) (l : List Char) (c : Char)
    (h : (stripChars p l).head? = some c) : p c = false := by
  unfold stripChars dropEndWhile at h
  rw [List.head?_reverse] at h
  set m := l.dropWhile p with hm
  set k := m.reverse.dropWhile p with hk
  have hkne : k ≠ [] := by
    intro hnil
    rw [hnil] at h
    simp at h
  have hsplit : m.reverse = m.reverse.takeWhile p ++ k :=
    (List.takeWhile_append_dropWhile p m.reverse).symm
  have h2 : m.reverse.getLast? = some c := by
    rw [hsplit, List.getLast?_append_of_ne_nil _ hkne]
    exact h
  rw [List.getLast?_reverse] at h2
  exact head?_dropWhile_false p l c h2

theorem dropWhile_eq_self_of_head (p : Char → Bool) (l : List Char)
    (h : ∀ c, l.head? = some c → p c = false) : l.dropWhile p = l := by
  cases l with
  | nil => rfl
  | cons a t =>
    rw [List.dropWhile_cons, if_neg]
    rw [h a rfl]
    simp

theorem stripChars_idem (p : Char → Bool) (l : List Char) :
    stripChars p (stripChars p l) = stripChars p l := by
  have h1 : (stripChars p l).dropWhile p = stripChars p l :=
    dropWhile_eq_self_of_head p _ (fun c hc => stripChars_head p l c hc)
  have h2 : (stripChars p l).reverse.dropWhile p = (stripChars p l).reverse := by
    refine dropWhile_eq_self_of_head p _ (fun c hc => ?_)
    rw [List.head?_reverse] at hc
    exact stripChars_getLast p l c hc
  show dropEndWhile p ((stripChars p l).dropWhile p) = stripChars p l
  rw [h1]
  unfold dropEndWhile
  rw [h2, List.reverse_reverse]

theorem toList_mk (l : List Char) : (String.mk l).toList = l := rfl

theorem pyStrip_idem (s : String) : pyStrip (pyStrip s) = pyStrip s := by
  show String.mk (stripChars _ (String.mk (stripChars _ s.toList)).toList) = _
  rw [toList_mk, stripChars_idem]
  rfl

theorem stripChars_decomp (p : Char → Bool) (l : List Char) :
    ∃ pre post : List Char, l = pre ++ stripChars p l ++ post ∧
      (∀ c ∈ pre, p c = true) ∧ (∀ c ∈ post, p c = true) := by
  refine ⟨l.takeWhile p, ((l.dropWhile p).reverse.takeWhile p).reverse, ?_, ?_, ?_⟩
  · conv_lhs => rw [← List.takeWhile_append_dropWhile p l]
    rw [List.append_assoc]
    congr 1
    conv_lhs => rw [← List.reverse_reverse (l.dropWhile p)]
    conv_lhs => rw [← List.takeWhile_append_dropWhile p (l.dropWhile p).reverse]
    rw [List.reverse_append]
    rfl
  · exact fun c hc => List.mem_takeWhile_imp hc
  · intro c hc
    rw [List.mem_reverse] at hc
    exact List.mem_takeWhile_imp hc

theorem cleanRow_length (df : DataFrame) (k : Nat) (l : List Cell) :
    (cleanRow df k l).length = l.length := by
  induction l generalizing k with
  | nil => rfl
  | cons c t ih => simp [cleanRow, ih]

theorem cleanRow_get? (df : DataFrame) (l : List Cell) :
    ∀ k j, (cleanRow df k l).get? j = (l.get? j).map (fun c => cleanCell df (k + j) c) := by
  induction l with
  | nil => intro k j; simp [cleanRow]
  | cons c t ih =>
    intro k j
    cases j with
    | zero => simp [cleanRow]
    | succ j =>
      simp only [cleanRow, List.get?_cons_succ, ih (k + 1) j]
      have : k + 1 + j = k + (j + 1) := by omega
      rw [this]

theorem sortDedup_sorted (l : List String) :
    List.Sorted (fun a b => a ≤ b) (sortDedup l) :=
  List.sorted_insertionSort _ _

theorem sortDedup_nodup (l : List String) : (sortDedup l).Nodup :=
  (List.perm_insertionSort _ _).nodup_iff.mpr (List.nodup_dedup l)

theorem sortDedup_mem (l : List String) (v : String) :
    v ∈ sortDedup l ↔ v ∈ l :=
  (List.perm_insertionSort _ _).mem_iff.trans List.mem_dedup

theorem sortDedup_perm_congr {l1 l2 : List String} (h : l1.Perm l2) :
    sortDedup l1 = sortDedup l2 :=
  List.eq_of_perm_of_sorted
    ((List.perm_insertionSort _ _).trans (h.dedup.trans (List.perm_insertionSort _ _).symm))
    (sortDedup_sorted l1) (sortDedup_sorted l2)

theorem tryAttempts_append_of_rejected (read : String → String → Option DataFrame)
    (l1 l2 : List (String × String))
    (h : ∀ a ∈ l1, ∀ df, read a.1 a.2 = some df → attemptOk df = false) :
    tryAttempts read (l1 ++ l2) = tryAttempts read l2 := by
  induction l1 with
  | nil => rfl
  | cons a t ih =>
    obtain ⟨e, d⟩ := a
    rw [List.cons_append]
    show (match read e d with
      | some df => if attemptOk df then some df else tryAttempts read (t ++ l2)
      | none => tryAttempts read (t ++ l2)) = tryAttempts read l2
    have hrest : tryAttempts read (t ++ l2) = tryAttempts read l2 :=
      ih (fun b hb => h b (List.mem_cons_of_mem _ hb))
    cases hread : read e d with
    | none => exact hrest
    | some df =>
      have hf := h (e, d) (List.mem_cons_self _ _) df hread
      simp [hf, hrest]

/-! ## Claim theorems -/

/-- Claim C2: the loader tries parse attempts in encoding-major order
(utf-8, latin-1, cp1252, iso-8859-1) with delimiter-minor order (comma,
semicolon, tab, pipe), returning the table of the first accepted attempt —
an attempt being accepted iff it decodes without encoding errors, yields
more than one column, at least one row, and more than half of the first
data row's cells non-empty — and no later combination is considered. -/
theorem loader_first_acceptance
    (read : String → String → Option DataFrame) (content : String)
    (l1 l2 : List (String × String)) (e d : String) (df : DataFrame)
    (horder : attemptList = l1 ++ (e, d) :: l2)
    (hskip : ∀ a ∈ l1, ∀ df0, read a.1 a.2 = some df0 → attemptOk df0 = false)
    (hread : read e d = some df) (hok : attemptOk df = true) :
    repair_and_read_csv read content = some df ∧
    attemptList = [("utf-8", ","), ("utf-8", ";"), ("utf-8", "\t"), ("utf-8", "|"),
      ("latin-1", ","), ("latin-1", ";"), ("latin-1", "\t"), ("latin-1", "|"),
      ("cp1252", ","), ("cp1252", ";"), ("cp1252", "\t"), ("cp1252", "|"),
      ("iso-8859-1", ","), ("iso-8859-1", ";"), ("iso-8859-1", "\t"), ("iso-8859-1", "|")] ∧
    (∀ dfx : DataFrame, attemptOk dfx = true ↔
      (1 < dfx.columns.length ∧ 0 < dfx.rows.length ∧
        ∃ r rest, dfx.rows = r :: rest ∧
          dfx.columns.length < 2 * (r.filter (fun c => !c.isNan)).length)) := by
  refine ⟨?_, by rfl, ?_⟩
  · unfold repair_and_read_csv
    rw [horder, tryAttempts_append_of_rejected read l1 _ hskip]
    simp [tryAttempts, hread, hok]
  · intro dfx
    unfold attemptOk
    cases hrows : dfx.rows with
    | nil => simp
    | cons r rest => simp

/-- Witness for C2 at a concrete accepted first attempt. -/
theorem loader_first_acceptance_witness :
    repair_and_read_csv
        (fun _ _ => some ⟨["a", "b"], [Dtype.object, Dtype.object],
          [[Cell.str "1", Cell.str "2"]]⟩) "" =
      some ⟨["a", "b"], [Dtype.object, Dtype.object], [[Cell.str "1", Cell.str "2"]]⟩ ∧
    attemptList = [("utf-8", ","), ("utf-8", ";"), ("utf-8", "\t"), ("utf-8", "|"),
      ("latin-1", ","), ("latin-1", ";"), ("latin-1", "\t"), ("latin-1", "|"),
      ("cp1252", ","), ("cp1252", ";"), ("cp1252", "\t"), ("cp1252", "|"),
      ("iso-8859-1", ","), ("iso-8859-1", ";"), ("iso-8859-1", "\t"), ("iso-8859-1", "|")] ∧
    (∀ dfx : DataFrame, attemptOk dfx = true ↔
      (1 < dfx.columns.length ∧ 0 < dfx.rows.length ∧
        ∃ r rest, dfx.rows = r :: rest ∧
          dfx.columns.length < 2 * (r.filter (fun c => !c.isNan)).length)) :=
  loader_first_acceptance
    (fun _ _ => some ⟨["a", "b"], [Dtype.object, Dtype.object],
      [[Cell.str "1", Cell.str "2"]]⟩) ""
    [] [("utf-8", ";"), ("utf-8", "\t"), ("utf-8", "|"),
      ("latin-1", ","), ("latin-1", ";"), ("latin-1", "\t"), ("latin-1", "|"),
      ("cp1252", ","), ("cp1252", ";"), ("cp1252", "\t"), ("cp1252", "|"),
      ("iso-8859-1", ","), ("iso-8859-1", ";"), ("iso-8859-1", "\t"), ("iso-8859-1", "|")]
    "utf-8" "," _ rfl (by intro a ha; simp at ha) rfl (by decide)

/-- Claim C3: in the manual fallback, a subsequent line is kept iff it
splits into exactly as many cells as the header; mismatched lines are
silently dropped (never padded or truncated), kept rows stay in input
order, and fewer than two non-empty trimmed lines make the fallback fail. -/
theorem fallback_row_policy (content : String) :
    ((pyLines content).length < 2 → manualParse content = none) ∧
    (∀ first rest, pyLines content = first :: rest →
      ∀ df, manualParse content = some df →
        df.columns = splitRow (detectDelim first) first ∧
        df.rows = ((rest.map (splitRow (detectDelim first))).filter
            (fun r => r.length == (splitRow (detectDelim first) first).length)).map
          (fun r => r.map Cell.str) ∧
        List.Sublist df.rows
          ((rest.map (splitRow (detectDelim first))).map (fun r => r.map Cell.str))) := by
  constructor
  · intro hlen
    unfold manualParse
    cases hl : pyLines content with
    | nil => rfl
    | cons first rest =>
      rw [hl, List.length_cons] at hlen
      have hr : rest = [] := List.eq_nil_of_length_eq_zero (by omega)
      subst hr
      rfl
  · intro first rest hl df hdf
    unfold manualParse at hdf
    rw [hl] at hdf
    cases rest with
    | nil => simp at hdf
    | cons r0 rest' =>
      simp only [List.isEmpty_cons, Bool.false_eq_true, if_false] at hdf
      split at hdf
      · exact absurd hdf (by simp)
      · rw [Option.some.injEq] at hdf
        subst hdf
        refine ⟨rfl, rfl, ?_⟩
        exact (List.filter_sublist _).map _

/-- Witness for C3 on an input with one malformed (extra-field) line. -/
theorem fallback_row_policy_witness :
    manualParse "a,b\n1,2\n1,2,3\nx,y" =
      some (DataFrame.mk ["a", "b"] [Dtype.object, Dtype.object]
        [[Cell.str "1", Cell.str "2"], [Cell.str "x", Cell.str "y"]]) ∧
    (DataFrame.mk ["a", "b"] [Dtype.object, Dtype.object]
        [[Cell.str "1", Cell.str "2"], [Cell.str "x", Cell.str "y"]]).rows =
      ((["1,2", "1,2,3", "x,y"].map (splitRow (detectDelim "a,b"))).filter
          (fun r => r.length == (splitRow (detectDelim "a,b") "a,b").length)).map
        (fun r => r.map Cell.str) := by
  have h := (fallback_row_policy "a,b\n1,2\n1,2,3\nx,y").2 "a,b" ["1,2", "1,2,3", "x,y"]
    (by decide)
    (DataFrame.mk ["a", "b"] [Dtype.object, Dtype.object]
      [[Cell.str "1", Cell.str "2"], [Cell.str "x", Cell.str "y"]]) (by decide)
  exact ⟨by decide, h.2.1⟩

/-- Claim C5: a nonexistent path fails with the not-found message, non-zero
exit, and no write; a wrong extension fails with the wrong-type message
before any parsing attempt (the outcome is one fixed record, whatever the
reader would have returned) and before any output is written. -/
theorem convert_rejects_before_parse (read : String → String → Option DataFrame)
    (file : InputFile) (out title : Option String) :
    (file.present = false →
      convert_csv_to_html read file out title =
        { result := none, written := none,
          errMsg := some ("Input file \x27" ++ file.path ++ "\x27 not found") } ∧
      mainExit read file out title = 1) ∧
    (file.present = true → pyLower (pySuffix file.path) ≠ ".csv" →
      convert_csv_to_html read file out title =
        { result := none, written := none,
          errMsg := some "Input file must be a CSV file" } ∧
      mainExit read file out title = 1) := by
  constructor
  · intro h
    constructor
    · simp [convert_csv_to_html, h]
    · simp [mainExit, convert_csv_to_html, h]
  · intro h1 h2
    have hb : (pyLower (pySuffix file.path) == ".csv") = false :=
      beq_eq_false_iff_ne.mpr h2
    constructor
    · simp [convert_csv_to_html, h1, hb]
    · simp [mainExit, convert_csv_to_html, h1, hb]

/-- Witness for C5: a missing file and a `.txt` file. -/
theorem convert_rejects_before_parse_witness :
    (convert_csv_to_html (fun _ _ => none) ⟨"gone.csv", false, ""⟩ none none =
      { result := none, written := none,
        errMsg := some ("Input file \x27" ++ "gone.csv" ++ "\x27 not found") } ∧
      mainExit (fun _ _ => none) ⟨"gone.csv", false, ""⟩ none none = 1) ∧
    (convert_csv_to_html (fun _ _ => none) ⟨"data.txt", true, "a,b\n1,2"⟩ none none =
      { result := none, written := none,
        errMsg := some "Input file must be a CSV file" } ∧
      mainExit (fun _ _ => none) ⟨"data.txt", true, "a,b\n1,2"⟩ none none = 1) :=
  ⟨(convert_rejects_before_parse _ _ _ _).1 rfl,
   (convert_rejects_before_parse _ _ _ _).2 rfl (by decide)⟩

/-- Claim C10: the manual fallback picks the first of semicolon, tab, pipe,
comma present in the first line (comma when none is present); in particular
a first line holding both a comma and a semicolon is split on the
semicolon. -/
theorem fallback_delimiter_preference (l : String) :
    detectDelim l = (([';', '\t', '|', ','].find? (fun d => pyIn d l)).getD ',') ∧
    (pyIn ',' l = true → pyIn ';' l = true → detectDelim l = ';') := by
  refine ⟨rfl, fun _ h2 => ?_⟩
  unfold detectDelim
  simp [List.find?_cons, h2]

/-- Witness for C10 at a line holding both comma and semicolon. -/
theorem fallback_delimiter_preference_witness :
    detectDelim "a,b;c" = ';' :=
  (fallback_delimiter_preference "a,b;c").2 (by decide) (by decide)

/-- Claim C4 (counterexample): `"\"\"x\"\""` does NOT retain inner quotes —
`strip('"')` removes every leading and trailing quote, so the field
normalises to `x`, not to `"x"` as the claim states. -/
theorem fallback_quote_strip_counterexample :
    cleanField "\"\"x\"\"" = "x" ∧ cleanField "\"\"x\"\"" ≠ "\"x\"" :=
  ⟨by decide, by decide⟩

/-- Claim C4 (amended): each field of the manual fallback is normalised by
stripping surrounding whitespace and then every leading and trailing double
quote (not just one pair): the result never starts or ends with a quote and
arises from the whitespace-stripped field by deleting a run of quotes at
each end. -/
theorem fallback_field_normalization (s : String) :
    (∀ c, (cleanField s).toList.head? = some c → c ≠ '"') ∧
    (∀ c, (cleanField s).toList.getLast? = some c → c ≠ '"') ∧
    (∃ pre post : List Char,
      (pyStrip s).toList = pre ++ (cleanField s).toList ++ post ∧
      (∀ c ∈ pre, c = '"') ∧ (∀ c ∈ post, c = '"')) := by
  have hl : (cleanField s).toList = stripChars (fun c => c = '"') (pyStrip s).toList := rfl
  refine ⟨?_, ?_, ?_⟩
  · intro c hc
    rw [hl] at hc
    have := stripChars_head _ _ c hc
    simpa using this
  · intro c hc
    rw [hl] at hc
    have := stripChars_getLast _ _ c hc
    simpa using this
  · obtain ⟨pre, post, heq, hpre, hpost⟩ :=
      stripChars_decomp (fun c => decide (c = '"')) (pyStrip s).toList
    refine ⟨pre, post, by rw [hl]; exact heq, ?_, ?_⟩
    · exact fun c hc => of_decide_eq_true (hpre c hc)
    · exact fun c hc => of_decide_eq_true (hpost c hc)

/-- Witness for the amended C4 at the doubled-quote field. -/
theorem fallback_field_normalization_witness :
    ('x' ≠ '"') ∧
    (∃ pre post : List Char,
      (pyStrip "  \"\"x\"\"  ").toList = pre ++ (cleanField "  \"\"x\"\"  ").toList ++ post ∧
      (∀ c ∈ pre, c = '"') ∧ (∀ c ∈ post, c = '"')) :=
  ⟨(fallback_field_normalization "  \"\"x\"\"  ").1 'x' (by decide),
   (fallback_field_normalization "  \"\"x\"\"  ").2.2⟩

/-- Claim C1 (counterexample): an existing `.csv` file whose content no
reader attempt parses and whose manual fallback recovers nothing makes the
CLI exit with status 0, refuting the claimed non-zero exit. -/
theorem cli_unparseable_exit_counterexample :
    repair_and_read_csv (fun _ _ => none) "x" = none ∧
    mainExit (fun _ _ => none) (InputFile.mk "data.csv" true "x") none none = 0 :=
  ⟨by decide, by decide⟩

/-- Claim C1 (amended): for every existing input with the `.csv` extension
whose content neither any encoding/delimiter attempt nor the manual
fallback can parse, the conversion writes the minimal error-describing HTML
page as the output artifact and the CLI exits with status 0 (success), not
the claimed non-zero status — `create_html_from_csv` swallows the failure
and `convert_csv_to_html` reports the written path. -/
theorem cli_unparseable_writes_error_page
    (read : String → String → Option DataFrame) (file : InputFile)
    (out title : Option String)
    (hp : file.present = true) (hs : pyLower (pySuffix file.path) = ".csv")
    (hu : repair_and_read_csv read file.content = none) :
    mainExit read file out title = 0 ∧
    (convert_csv_to_html read file out title).written =
      some (out.getD (withSuffixHtml file.path),
        errorHtml "Could not read CSV file or file is empty") := by
  have hb : (pyLower (pySuffix file.path) == ".csv") = true := beq_iff_eq.mpr hs
  constructor
  · simp [mainExit, convert_csv_to_html, hp, hb]
  · simp [convert_csv_to_html, hp, hb, create_html_from_csv, hu]

/-- Witness for the amended C1 at a concrete unparseable `.csv` file. -/
theorem cli_unparseable_writes_error_page_witness :
    mainExit (fun _ _ => none) (InputFile.mk "in.csv" true "zz") none none = 0 ∧
    (convert_csv_to_html (fun _ _ => none) (InputFile.mk "in.csv" true "zz") none none).written =
      some ((none : Option String).getD (withSuffixHtml "in.csv"),
        errorHtml "Could not read CSV file or file is empty") :=
  cli_unparseable_writes_error_page (fun _ _ => none) (InputFile.mk "in.csv" true "zz")
    none none rfl (by decide) (by decide)

/-- Claim C6 (counterexample): a loader-accepted frame with a purely
numeric column keeps its numeric cells through the cleaning step — they are
not converted to (trimmed) strings, refuting the claim for numeric
columns. -/
theorem clean_df_numeric_counterexample :
    attemptOk (DataFrame.mk ["a", "b"] [Dtype.numeric, Dtype.numeric]
      [[Cell.num 1, Cell.num 2]]) = true ∧
    (clean_df (DataFrame.mk ["a", "b"] [Dtype.numeric, Dtype.numeric]
      [[Cell.num 1, Cell.num 2]])).rows = [[Cell.num 1, Cell.num 2]] ∧
    (∀ s, Cell.num 1 ≠ Cell.str s) :=
  ⟨by decide, by decide, fun _ h => Cell.noConfusion h⟩

/-- Claim C6 (amended): the cleaning step trims every column name; in every
column that has object dtype after the missing-value fill, each cell is a
trimmed string and a missing cell becomes the empty string; a column that
stays numeric (numeric dtype, no missing values) keeps its cells
unchanged. -/
theorem clean_df_normalization (df : DataFrame) :
    (∀ c ∈ (clean_df df).columns, pyStrip c = c) ∧
    (∀ i r, (clean_df df).rows.get? i = some r →
      ∃ r0, df.rows.get? i = some r0 ∧ r.length = r0.length ∧
        ∀ j c c0, r.get? j = some c → r0.get? j = some c0 →
          (dtypeAfterFill df j = Dtype.object →
            ∃ s, c = Cell.str s ∧ pyStrip s = s ∧ (c0 = Cell.nan → s = "")) ∧
          (dtypeAfterFill df j = Dtype.numeric → c = c0 ∧ c0 ≠ Cell.nan)) := by
  constructor
  · intro c hc
    simp only [clean_df, List.mem_map] at hc
    obtain ⟨c0, _, rfl⟩ := hc
    exact pyStrip_idem c0
  · intro i r hr
    have hrows : (clean_df df).rows = df.rows.map (cleanRow df 0) := rfl
    rw [hrows, List.get?_map] at hr
    cases hr0 : df.rows.get? i with
    | none => rw [hr0] at hr; simp at hr
    | some r0 =>
      rw [hr0] at hr
      have hrr : r = cleanRow df 0 r0 := by
        injection hr with h
        exact h.symm
      refine ⟨r0, rfl, by rw [hrr, cleanRow_length], ?_⟩
      intro j c c0 hc hc0
      rw [hrr, cleanRow_get? df r0 0 j, hc0] at hc
      have hcc : c = cleanCell df j c0 := by
        injection hc with h
        rw [← h, Nat.zero_add]
      constructor
      · intro hobj
        have hcell : cleanCell df j c0 = Cell.str (pyStrip (cellToStr (cellFill c0))) := by
          rw [cleanCell, if_pos hobj]
        refine ⟨pyStrip (cellToStr (cellFill c0)), by rw [hcc, hcell], pyStrip_idem _, ?_⟩
        intro hnan
        subst hnan
        rfl
      · intro hnum
        have hcond : ¬ dtypeAfterFill df j = Dtype.object := by
          rw [hnum]
          intro hh
          exact Dtype.noConfusion hh
        have hcell : cleanCell df j c0 = c0 := by
          rw [cleanCell, if_neg hcond]
        refine ⟨by rw [hcc, hcell], ?_⟩
        intro hnan
        have hmem : r0 ∈ df.rows := List.get?_mem hr0
        have hc0g : r0[j]? = some c0 := by rw [← List.get?_eq_getElem?]; exact hc0
        have hgd : r0.getD j (Cell.str "") = c0 := by simp [List.getD, hc0g]
        have hnanb : colHasNan df j = true := by
          unfold colHasNan
          rw [List.any_eq_true]
          exact ⟨r0, hmem, by rw [hgd, hnan]; rfl⟩
        have hobj : dtypeAfterFill df j = Dtype.object := by
          unfold dtypeAfterFill
          rw [hnanb]
          simp
        rw [hobj] at hnum
        exact Dtype.noConfusion hnum

/-- Witness for the amended C6 at a one-column frame with a missing cell. -/
theorem clean_df_normalization_witness :
    (pyStrip "a" = "a") ∧
    (∃ r0, (DataFrame.mk [" a "] [Dtype.object] [[Cell.nan]]).rows.get? 0 = some r0 ∧
      ([Cell.str ""] : List Cell).length = r0.length ∧
      ∀ j c c0, ([Cell.str ""] : List Cell).get? j = some c → r0.get? j = some c0 →
        (dtypeAfterFill (DataFrame.mk [" a "] [Dtype.object] [[Cell.nan]]) j = Dtype.object →
          ∃ s, c = Cell.str s ∧ pyStrip s = s ∧ (c0 = Cell.nan → s = "")) ∧
        (dtypeAfterFill (DataFrame.mk [" a "] [Dtype.object] [[Cell.nan]]) j = Dtype.numeric →
          c = c0 ∧ c0 ≠ Cell.nan)) :=
  ⟨(clean_df_normalization (DataFrame.mk [" a "] [Dtype.object] [[Cell.nan]])).1 "a" (by decide),
   (clean_df_normalization (DataFrame.mk [" a "] [Dtype.object] [[Cell.nan]])).2 0
     [Cell.str ""] (by decide)⟩

/-- Claim C7: rendering the same table and title twice yields byte-identical
output, and the filter-option ordering is canonical: any two presentations
of the same value multiset sort-deduplicate to the same option list. -/
theorem render_deterministic (df : DataFrame) (tid t : String)
    (l1 l2 : List String) (h : l1.Perm l2) :
    create_enhanced_html_template df tid t = create_enhanced_html_template df tid t ∧
    sortDedup l1 = sortDedup l2 :=
  ⟨rfl, sortDedup_perm_congr h⟩

/-- Witness for C7 at a concrete frame and permuted value lists. -/
theorem render_deterministic_witness :
    create_enhanced_html_template (DataFrame.mk ["a"] [Dtype.object] [[Cell.str "v"]])
        "t" "T" =
      create_enhanced_html_template (DataFrame.mk ["a"] [Dtype.object] [[Cell.str "v"]])
        "t" "T" ∧
    sortDedup ["b", "a", "b"] = sortDedup ["a", "b", "b"] :=
  render_deterministic (DataFrame.mk ["a"] [Dtype.object] [[Cell.str "v"]]) "t" "T"
    ["b", "a", "b"] ["a", "b", "b"] (by decide)

/-- Claim C8: each column's filter dropdown holds exactly the distinct
string values of that column, sorted lexicographically (case-sensitively),
preceded by a single empty `All` option, inside a `select` carrying
`id="filter-j"` for its column index `j`. -/
theorem filter_dropdown_contract (df : DataFrame) (j : Nat)
    (hj : j < df.columns.length) :
    List.Sorted (fun a b => a ≤ b) (sortDedup (colValuesStr df j)) ∧
    (sortDedup (colValuesStr df j)).Nodup ∧
    (∀ v, v ∈ sortDedup (colValuesStr df j) ↔ v ∈ colValuesStr df j) ∧
    (∃ pre post : String, filterDropdowns df =
      pre ++ dropdownHtml j (df.columns.getD j "") (sortDedup (colValuesStr df j)) ++ post) ∧
    (∃ a a0 : String,
      dropdownHtml j (df.columns.getD j "") (sortDedup (colValuesStr df j)) =
        a ++ "<option value=\"\">All</option>" ++ ("\n                " ++
          optionsHtml (sortDedup (colValuesStr df j)) ++
          "\n            </select>\n        </div>\n        ") ∧
      a = a0 ++ ("id=\"filter-" ++ toString j ++ "\"") ++ ">\n                ") := by
  refine ⟨sortDedup_sorted _, sortDedup_nodup _, fun v => sortDedup_mem _ v, ?_, ?_⟩
  · exact strConcat_extract _ (List.mem_range.mpr hj)
  · refine ⟨"\n        <div class=\"col-md-3 mb-3\">\n            <label for=\"filter-" ++
      toString j ++ "\" class=\"form-label fw-bold\">" ++ df.columns.getD j "" ++
      "</label>\n            <select class=\"form-select filter-select\" data-column=\"" ++
      toString j ++ "\" " ++ ("id=\"filter-" ++ toString j ++ "\"") ++ ">\n                ",
      "\n        <div class=\"col-md-3 mb-3\">\n            <label for=\"filter-" ++
      toString j ++ "\" class=\"form-label fw-bold\">" ++ df.columns.getD j "" ++
      "</label>\n            <select class=\"form-select filter-select\" data-column=\"" ++
      toString j ++ "\" ", ?_, ?_⟩
    · simp only [dropdownHtml, String.append_assoc]
    · simp only [String.append_assoc]

/-- Witness for C8 at a two-column frame with duplicate values. -/
theorem filter_dropdown_contract_witness :
    List.Sorted (fun a b => a ≤ b)
      (sortDedup (colValuesStr (DataFrame.mk ["c1", "c2"]
        [Dtype.object, Dtype.object]
        [[Cell.str "b", Cell.str "y"], [Cell.str "a", Cell.str "y"]]) 1)) ∧
    (sortDedup (colValuesStr (DataFrame.mk ["c1", "c2"]
      [Dtype.object, Dtype.object]
      [[Cell.str "b", Cell.str "y"], [Cell.str "a", Cell.str "y"]]) 1)).Nodup ∧
    (∀ v, v ∈ sortDedup (colValuesStr (DataFrame.mk ["c1", "c2"]
        [Dtype.object, Dtype.object]
        [[Cell.str "b", Cell.str "y"], [Cell.str "a", Cell.str "y"]]) 1) ↔
      v ∈ colValuesStr (DataFrame.mk ["c1", "c2"]
        [Dtype.object, Dtype.object]
        [[Cell.str "b", Cell.str "y"], [Cell.str "a", Cell.str "y"]]) 1) ∧
    (∃ pre post : String,
      filterDropdowns (DataFrame.mk ["c1", "c2"] [Dtype.object, Dtype.object]
        [[Cell.str "b", Cell.str "y"], [Cell.str "a", Cell.str "y"]]) =
      pre ++ dropdownHtml 1
        ((DataFrame.mk ["c1", "c2"] [Dtype.object, Dtype.object]
          [[Cell.str "b", Cell.str "y"], [Cell.str "a", Cell.str "y"]]).columns.getD 1 "")
        (sortDedup (colValuesStr (DataFrame.mk ["c1", "c2"]
          [Dtype.object, Dtype.object]
          [[Cell.str "b", Cell.str "y"], [Cell.str "a", Cell.str "y"]]) 1)) ++ post) ∧
    (∃ a a0 : String,
      dropdownHtml 1
        ((DataFrame.mk ["c1", "c2"] [Dtype.object, Dtype.object]
          [[Cell.str "b", Cell.str "y"], [Cell.str "a", Cell.str "y"]]).columns.getD 1 "")
        (sortDedup (colValuesStr (DataFrame.mk ["c1", "c2"]
          [Dtype.object, Dtype.object]
          [[Cell.str "b", Cell.str "y"], [Cell.str "a", Cell.str "y"]]) 1)) =
        a ++ "<option value=\"\">All</option>" ++ ("\n                " ++
          optionsHtml (sortDedup (colValuesStr (DataFrame.mk ["c1", "c2"]
            [Dtype.object, Dtype.object]
            [[Cell.str "b", Cell.str "y"], [Cell.str "a", Cell.str "y"]]) 1)) ++
          "\n            </select>\n        </div>\n        ") ∧
      a = a0 ++ ("id=\"filter-" ++ toString 1 ++ "\"") ++ ">\n                ") :=
  filter_dropdown_contract (DataFrame.mk ["c1", "c2"] [Dtype.object, Dtype.object]
    [[Cell.str "b", Cell.str "y"], [Cell.str "a", Cell.str "y"]]) 1 (by decide)

/-- Claim C9: every string cell value of the rendered table appears
verbatim inside its `<td>` markup in the generated document — HTML-special
characters are not escaped. -/
theorem cell_values_verbatim (df : DataFrame) (tid t : String)
    (r : List Cell) (hr : r ∈ df.rows) (v : String) (hv : Cell.str v ∈ r) :
    ∃ pre post : String, create_enhanced_html_template df tid t =
      pre ++ ("<td>" ++ v ++ "</td>") ++ post := by
  have h1 : containsStr (strConcat (r.map cellTd)) ("<td>" ++ v ++ "</td>") :=
    containsStr_trans _ _ _ (strConcat_extract cellTd hv) ⟨"      ", "\n", rfl⟩
  have h2 : containsStr (rowTr r) ("<td>" ++ v ++ "</td>") :=
    containsStr_trans _ _ _ ⟨"    <tr>\n", "    </tr>\n", rfl⟩ h1
  have h3 : containsStr (strConcat (df.rows.map rowTr)) ("<td>" ++ v ++ "</td>") :=
    containsStr_trans _ _ _ (strConcat_extract rowTr hr) h2
  have h4 : containsStr (to_html df tid) ("<td>" ++ v ++ "</td>") :=
    containsStr_trans _ _ _
      ⟨"<table border=\"1\" class=\"dataframe table table-striped table-hover data-table\" id=\"" ++
        tid ++ "\">\n  <thead>\n    <tr style=\"text-align: right;\">\n" ++
        strConcat (df.columns.map headerTh) ++ "    </tr>\n  </thead>\n  <tbody>\n",
        "  </tbody>\n</table>", rfl⟩ h3
  have h5 : create_enhanced_html_template df tid t =
      (tmpl0 ++ t ++ tmpl1 ++ t ++ tmpl2 ++ toString df.rows.length ++ tmpl3 ++
        toString df.columns.length ++ tmpl4 ++ toString df.rows.length ++ tmpl5 ++
        filterDropdowns df ++ tmpl6) ++ to_html df tid ++ (tmpl7 ++ tid ++ tmpl8) := by
    simp only [create_enhanced_html_template, String.append_assoc]
  rw [h5]
  exact containsStr_pad _ _ _ _ h4

/-- Witness for C9 at a cell holding HTML-special characters. -/
theorem cell_values_verbatim_witness :
    ∃ pre post : String,
      create_enhanced_html_template (DataFrame.mk ["a"] [Dtype.object]
          [[Cell.str "<b>&"]]) "tid" "T" =
        pre ++ ("<td>" ++ "<b>&" ++ "</td>") ++ post :=
  cell_values_verbatim (DataFrame.mk ["a"] [Dtype.object] [[Cell.str "<b>&"]])
    "tid" "T" [Cell.str "<b>&"] (by decide) "<b>&" (by decide)

end Csv2Html
